import Mathlib

/-
Verification development for the CSV-to-MySQL import pipeline of the repository
(src/import_csv_to_mysql/main.py and src/app/import_csv_to_mysql/main.py).

The Python code is shallowly embedded: rows are lists of strings, the database
table is a list of inserted rows, the per-file scan is an explicit recursion,
and the fallible pieces (CSV decoding, cursor.execute) are modelled by explicit
parameters.  Machine integers do not occur (Python ints are unbounded), so
prices are Lean Int.  Unicode NFKC normalization (unicodedata.normalize) is an
external library function; the embeddings are parameterized by an arbitrary
function nfkc : String -> String standing for it, so every theorem below holds
for the real normalizer.  Python's int() and datetime.strptime are modelled
faithfully over ASCII (non-ASCII decimal digits, accepted by Python, are not
modelled; no claim depends on them).
-/

/-! ## Python string primitives -/

-- Whitespace stripped by Python str.strip() (ASCII part).
def isPySpace (c : Char) : Bool :=
  c = ' ' || c = '\t' || c = '\n' || c = '\r' || c = '\x0b' || c = '\x0c'

-- str.strip(): remove leading and trailing whitespace.
def pyStrip (s : String) : String :=
  ⟨((s.data.dropWhile isPySpace).reverse.dropWhile isPySpace).reverse⟩

-- s.replace(',', ''): with an empty replacement and a one-character pattern
-- this deletes every comma.
def removeCommas (s : String) : String :=
  ⟨s.data.filter (fun c => c ≠ ',')⟩

-- Python: c in s, for a one-character c, is containment of that character.
def containsChar (s : String) (c : Char) : Bool :=
  s.data.contains c

/-! ## Python int() on strings (base 10) -/

-- Value of an ASCII digit character.
def dv (c : Char) : Nat := c.toNat - 48

-- ASCII decimal digit ('0' has code 48, '9' has code 57).
def isD (c : Char) : Prop := 48 ≤ c.toNat ∧ c.toNat ≤ 57

instance (c : Char) : Decidable (isD c) := by unfold isD; infer_instance

-- Digits after the first one; Python int() allows single underscores
-- strictly between digits.
def pyDigitsGo (acc : Nat) : List Char → Option Nat
  | [] => some acc
  | '_' :: c :: cs => if isD c then pyDigitsGo (acc * 10 + dv c) cs else none
  | ['_'] => none
  | c :: cs => if isD c then pyDigitsGo (acc * 10 + dv c) cs else none

-- A nonempty digit run (underscore-separated groups allowed).
def pyIntDigits : List Char → Option Nat
  | [] => none
  | c :: cs => if isD c then pyDigitsGo (dv c) cs else none

-- int(s) for a base-10 string: optional surrounding whitespace, optional
-- sign, then digits.  none models ValueError.
def pyInt (s : String) : Option Int :=
  match (pyStrip s).data with
  | [] => none
  | c :: cs =>
    if c = '+' then (pyIntDigits cs).map (fun k : Nat => (k : Int))
    else if c = '-' then (pyIntDigits cs).map (fun k : Nat => -(k : Int))
    else (pyIntDigits (c :: cs)).map (fun k : Nat => (k : Int))

/-! ## datetime.strptime(s, '%Y/%m/%d') -/

structure Date where
  year : Nat
  month : Nat
  day : Nat
deriving DecidableEq, Repr

-- Gregorian month lengths, as validated by the datetime constructor.
def daysInMonth (y m : Nat) : Nat :=
  if m = 2 then (if y % 4 = 0 ∧ (y % 100 ≠ 0 ∨ y % 400 = 0) then 29 else 28)
  else if m = 4 ∨ m = 6 ∨ m = 9 ∨ m = 11 then 30
  else 31

-- CPython _strptime matches the month with the regex 1[0-2]|0[1-9]|[1-9].
-- Since each two-character alternative consumes a digit that the following
-- literal '/' could never match, first-alternative-wins is equivalent to the
-- regex with backtracking.  Character codes: '0' = 48, '1' = 49, '2' = 50,
-- '9' = 57, '3' = 51.
def parseMonthTok : List Char → Option (Nat × List Char)
  | [] => none
  | [c1] => if 49 ≤ c1.toNat ∧ c1.toNat ≤ 57 then some (dv c1, []) else none
  | c1 :: c2 :: rest =>
    if c1.toNat = 49 ∧ 48 ≤ c2.toNat ∧ c2.toNat ≤ 50 then some (10 + dv c2, rest)
    else if c1.toNat = 48 ∧ 49 ≤ c2.toNat ∧ c2.toNat ≤ 57 then some (dv c2, rest)
    else if 49 ≤ c1.toNat ∧ c1.toNat ≤ 57 then some (dv c1, c2 :: rest)
    else none

-- CPython _strptime matches the day with the regex 3[01]|[12]\d|0[1-9]|[1-9].
def parseDayTok : List Char → Option (Nat × List Char)
  | [] => none
  | [c1] => if 49 ≤ c1.toNat ∧ c1.toNat ≤ 57 then some (dv c1, []) else none
  | c1 :: c2 :: rest =>
    if c1.toNat = 51 ∧ 48 ≤ c2.toNat ∧ c2.toNat ≤ 49 then some (30 + dv c2, rest)
    else if (c1.toNat = 49 ∨ c1.toNat = 50) ∧ 48 ≤ c2.toNat ∧ c2.toNat ≤ 57 then
      some (10 * dv c1 + dv c2, rest)
    else if c1.toNat = 48 ∧ 49 ≤ c2.toNat ∧ c2.toNat ≤ 57 then some (dv c2, rest)
    else if 49 ≤ c1.toNat ∧ c1.toNat ≤ 57 then some (dv c1, c2 :: rest)
    else none

-- datetime.strptime(s, '%Y/%m/%d').date():  %Y is exactly four digits
-- (regex \d\d\d\d), then a literal '/', month and day as above, nothing may
-- remain afterwards, and the datetime constructor validates the calendar
-- (year at least 1, day within the month).  none models ValueError.
def parseYMD (s : String) : Option Date :=
  match s.data with
  | y1 :: y2 :: y3 :: y4 :: sl1 :: rest =>
    if isD y1 ∧ isD y2 ∧ isD y3 ∧ isD y4 ∧ sl1 = '/' then
      let y := dv y1 * 1000 + dv y2 * 100 + dv y3 * 10 + dv y4
      match parseMonthTok rest with
      | some (m, sl2 :: rest2) =>
        if sl2 = '/' then
          match parseDayTok rest2 with
          | some (d, []) =>
            if 1 ≤ y ∧ 1 ≤ d ∧ d ≤ daysInMonth y m then some ⟨y, m, d⟩ else none
          | _ => none
        else none
      | _ => none
    else none
  | _ => none

-- Written from the spec's words, for comparison with parseYMD: a strict
-- YYYY/MM/DD representation is exactly four digit year, slash, two digit
-- month, slash, two digit day, with valid calendar values.
def specStrictYMD (s : String) : Option Date :=
  match s.data with
  | [y1, y2, y3, y4, s1, m1, m2, s2, d1, d2] =>
    if isD y1 ∧ isD y2 ∧ isD y3 ∧ isD y4 ∧ s1 = '/' ∧ isD m1 ∧ isD m2 ∧
       s2 = '/' ∧ isD d1 ∧ isD d2 then
      let y := dv y1 * 1000 + dv y2 * 100 + dv y3 * 10 + dv y4
      let m := 10 * dv m1 + dv m2
      let d := 10 * dv d1 + dv d2
      if 1 ≤ y ∧ 1 ≤ m ∧ m ≤ 12 ∧ 1 ≤ d ∧ d ≤ daysInMonth y m then
        some ⟨y, m, d⟩
      else none
    else none
  | _ => none

/-! ## The numeric cells -/

-- The shape shared by the price and payment lines of parse_csv_row:
--   try: v = int(cell.replace(',', '').strip()) if cell.strip() else fb
--   except ValueError: v = fb
def parseMoney (cell : String) (fallback : Int) : Int :=
  if pyStrip cell = "" then fallback
  else match pyInt (pyStrip (removeCommas cell)) with
    | some n => n
    | none => fallback

/-! ## parse_csv_row, both versions -/

-- The dictionary returned by parse_csv_row.
structure Rec where
  used_at : Date
  store : String
  price : Int
  payment : Int
  note : Option String
  service : String
  card_number : String
deriving DecidableEq, Repr

namespace App

-- src/app/import_csv_to_mysql/main.py lines 57-72: the width-dependent store
-- merge and field indices.
structure Extracted where
  store : String
  price_idx : Nat
  payment_count_idx : Nat
  installment_count_idx : Nat
  payment_amount_idx : Nat
  note_idx : Nat
deriving DecidableEq, Repr

def extract (row : List String) : Extracted :=
  if 7 < row.length then
    { store := String.intercalate ", "
        ((List.range' 1 (row.length - 5 - 1)).map (fun i => pyStrip (row.getD i ""))),
      price_idx := row.length - 5,
      payment_count_idx := row.length - 4,
      installment_count_idx := row.length - 3,
      payment_amount_idx := row.length - 2,
      note_idx := row.length - 1 }
  else
    { store := if 1 < row.length then pyStrip (row.getD 1 "") else "",
      price_idx := 2,
      payment_count_idx := 3,
      installment_count_idx := 4,
      payment_amount_idx := 5,
      note_idx := 6 }

-- src/app/import_csv_to_mysql/main.py lines 38-104.
def parse_csv_row (nfkc : String → String) (row : List String)
    (card_number service : String) : Option Rec :=
  if row = [] ∨ row.length < 6 then none
  else if row.getD 0 "" = "" ∨ pyStrip (row.getD 0 "") = "" then none
  else match parseYMD (pyStrip (row.getD 0 "")) with
    | none => none
    | some used_at =>
      let e := extract row
      let store := nfkc e.store
      let price := parseMoney (row.getD e.price_idx "") 0
      let payment := parseMoney (row.getD e.payment_amount_idx "") price
      let note0 := pyStrip (row.getD e.note_idx "")
      let note := if note0 = "" then none else some (nfkc note0)
      some { used_at := used_at, store := store, price := price,
             payment := payment, note := note, service := service,
             card_number := card_number }

end App

namespace Root

-- src/import_csv_to_mysql/main.py lines 38-85: fixed positional mapping.
def parse_csv_row (nfkc : String → String) (row : List String)
    (card_number service : String) : Option Rec :=
  if row = [] ∨ row.length < 6 then none
  else if row.getD 0 "" = "" ∨ pyStrip (row.getD 0 "") = "" then none
  else match parseYMD (pyStrip (row.getD 0 "")) with
    | none => none
    | some used_at =>
      let store := nfkc (if 1 < row.length then pyStrip (row.getD 1 "") else "")
      let price := parseMoney (row.getD 2 "") 0
      let payment := parseMoney (row.getD 5 "") price
      let note0 := pyStrip (row.getD 6 "")
      let note := if note0 = "" then none else some (nfkc note0)
      some { used_at := used_at, store := store, price := price,
             payment := payment, note := note, service := service,
             card_number := card_number }

end Root

/-! ## import_csv_to_mysql and main (the idempotent loader) -/

-- One row of the credit_histories table, in the column order of the INSERT
-- statement.  created_at and updated_at hold the load's wall-clock time,
-- modelled by an abstract tick.
structure InsRow where
  used_at : Date
  store : String
  price : Int
  payment : Int
  note : Option String
  service : String
  file : String
  created_at : Nat
  updated_at : Nat
deriving DecidableEq, Repr

abbrev Table := List InsRow

-- The values tuple built at lines 160-170 of the app version.
def toInsRow (r : Rec) (file : String) (now : Nat) : InsRow :=
  { used_at := r.used_at, store := r.store, price := r.price,
    payment := r.payment, note := r.note, service := r.service,
    file := file, created_at := now, updated_at := now }

-- The prints of import_csv_to_mysql, one constructor per print statement.
inductive LogMsg
  | skipped (service file : String)
  | insertedRow (used_at : Date) (store : String) (price : Int)
  | totalInserted (n : Nat)
  | dbError
deriving DecidableEq, Repr

-- One event of the streamed CSV read: a decoded row, or a decoding error
-- raised while iterating the Shift-JIS reader at that point of the file.
inductive RowEv
  | row (cells : List String)
  | readErr
deriving DecidableEq, Repr

-- How a call of import_csv_to_mysql terminates: a Python return value, or an
-- exception that is not a mysql.connector.Error and so propagates.
inductive PyResult
  | ret (n : Nat)
  | uncaught
deriving DecidableEq, Repr

structure ImportOut where
  res : PyResult
  table : Table
  log : List LogMsg
deriving DecidableEq, Repr

-- The card-number marker test at line 147 of the app version:
--   len(row) > 1 and row[1] and '-' in row[1] and '*' in row[1]
def isMarker (row : List String) : Bool :=
  decide (1 < row.length) && (row.getD 1 "" ≠ "") &&
    containsChar (row.getD 1 "") '-' && containsChar (row.getD 1 "") '*'

-- os.path.basename for POSIX paths: everything after the last '/'.
def basename (p : String) : String :=
  ⟨(p.data.reverse.takeWhile (fun c => c ≠ '/')).reverse⟩

-- The WHERE clause of the dedup count query: service = %s AND file = %s.
def matchesKey (service file : String) (r : InsRow) : Bool :=
  decide (r.service = service ∧ r.file = file)

-- Result of the for-loop body of import_csv_to_mysql: a normal run reaching
-- the commit, a mysql.connector.Error raised by cursor.execute, or an
-- uncaught exception raised while decoding the file.
inductive LoopOut
  | committed (n : Nat) (pending : List InsRow) (log : List LogMsg)
  | dbError (log : List LogMsg)
  | uncaughtExc (log : List LogMsg)
deriving DecidableEq, Repr

namespace App

-- The for-loop of import_csv_to_mysql (lines 145-174).  card is the
-- current_card_number variable, k the inserted_count variable, pending the
-- rows passed to cursor.execute inside the still-open transaction, log the
-- prints so far.  failAt k = true means the execute of the k-th insert
-- raises mysql.connector.Error (connection loss, constraint violation...).
def loop (nfkc : String → String) (service fileName : String) (now : Nat)
    (failAt : Nat → Bool) (stream : List RowEv) (card : String) (k : Nat)
    (pending : List InsRow) (log : List LogMsg) : LoopOut :=
  match stream with
  | [] => .committed k pending log
  | .readErr :: _ => .uncaughtExc log
  | .row r :: rest =>
    if isMarker r then
      loop nfkc service fileName now failAt rest (pyStrip (r.getD 1 "")) k pending log
    else
      match parse_csv_row nfkc r card service with
      | none => loop nfkc service fileName now failAt rest card k pending log
      | some rec =>
        if failAt k then .dbError log
        else
          loop nfkc service fileName now failAt rest card (k + 1)
            (pending ++ [toInsRow rec fileName now])
            (log ++ [.insertedRow rec.used_at rec.store rec.price])

-- import_csv_to_mysql (lines 107-186 of the app version; the root version's
-- loader, lines 88-167, is line-for-line the same up to its parse_csv_row).
-- A committed run extends the table by the pending inserts; a
-- mysql.connector.Error triggers connection.rollback(), leaving the table as
-- it was; an uncaught exception leaves the transaction uncommitted, which
-- the server discards when the connection closes, so the table is likewise
-- unchanged.
def import_csv_to_mysql (nfkc : String → String) (table : Table)
    (csvFile service : String) (stream : List RowEv) (failAt : Nat → Bool)
    (now : Nat) : ImportOut :=
  let fileName := basename csvFile
  let count := (table.filter (matchesKey service fileName)).length
  if 0 < count then
    { res := .ret 0, table := table, log := [.skipped service fileName] }
  else
    match loop nfkc service fileName now failAt stream "" 0 [] [] with
    | .committed n pending log =>
      { res := .ret n, table := table ++ pending, log := log ++ [.totalInserted n] }
    | .dbError log =>
      { res := .ret 0, table := table, log := log ++ [.dbError] }
    | .uncaughtExc log =>
      { res := .uncaught, table := table, log := log }

end App

-- One file of a run: its path, its decoded row stream, and the behavior of
-- the insert layer while it is processed.
structure FileJob where
  path : String
  stream : List RowEv
  failAt : Nat → Bool

structure RunOut where
  completed : Bool
  total : Nat
  table : Table
  log : List LogMsg
deriving DecidableEq, Repr

-- The per-file loop of main() (lines 222-230 of the app version): each file
-- is imported in order and the returned counts are summed; an exception
-- propagating out of import_csv_to_mysql aborts the run (main has no
-- per-file try, only a finally that closes the connection), so the remaining
-- files are not processed and no summary is printed.
def mainLoop (nfkc : String → String) (service : String) (now : Nat) :
    Table → List FileJob → RunOut
  | table, [] => { completed := true, total := 0, table := table, log := [] }
  | table, job :: rest =>
    let o := App.import_csv_to_mysql nfkc table job.path service job.stream job.failAt now
    match o.res with
    | .ret n =>
      let r := mainLoop nfkc service now o.table rest
      { completed := r.completed, total := n + r.total, table := r.table,
        log := o.log ++ r.log }
    | .uncaught =>
      { completed := false, total := 0, table := o.table, log := o.log }

-- The user-visible status of one file, read off the file's printed report.
inductive FileReport
  | dupSkip
  | finished (n : Nat)
  | failed
deriving DecidableEq, Repr

def reportOf (log : List LogMsg) : Option FileReport :=
  match log.getLast? with
  | some (.skipped _ _) => some .dupSkip
  | some (.totalInserted n) => some (.finished n)
  | some .dbError => some .failed
  | _ => none

/-! ## The pure per-file scan (spec section 4.6's state machine) -/

-- Effect of one row on the carried card number.
def cardStep (card : String) (r : List String) : String :=
  if isMarker r then pyStrip (r.getD 1 "") else card

-- Card number held after scanning a list of rows.
def cardAfter (card : String) (rows : List (List String)) : String :=
  rows.foldl cardStep card

-- The records emitted by one file's scan, starting from carried card number
-- card: marker rows update the card and emit nothing, data rows emit a
-- record tagged with the card held at that moment.
def scanRecords (nfkc : String → String) (service : String) (card : String) :
    List (List String) → List Rec
  | [] => []
  | r :: rest =>
    if isMarker r then scanRecords nfkc service (pyStrip (r.getD 1 "")) rest
    else
      match App.parse_csv_row nfkc r card service with
      | none => scanRecords nfkc service card rest
      | some rec => rec :: scanRecords nfkc service card rest

/-! ## Helper lemmas -/

theorem rangeMapGetD {α : Type} (d : α) :
    ∀ (n a : Nat) (l : List α), a + n ≤ l.length →
      (List.range' a n).map (fun i => l.getD i d) = (l.drop a).take n := by
  intro n
  induction n with
  | zero => intro a l _; simp
  | succ n ih =>
    intro a l h
    have ha : a < l.length := by omega
    rw [List.range'_succ, List.map_cons, ih (a + 1) l (by omega),
      List.getD_eq_getElem l d ha, List.drop_eq_getElem_cons ha,
      List.take_succ_cons]

theorem getD_reverse {α : Type} (d : α) (l : List α) (j : Nat) (h : j < l.length) :
    l.reverse.getD j d = l.getD (l.length - 1 - j) d := by
  have h1 : j < l.reverse.length := by simpa using h
  rw [List.getD_eq_getElem l.reverse d h1, List.getD_eq_getElem l d (by omega),
    List.getElem_reverse]

theorem mem_pyStrip {c : Char} {s : String} (h : c ∈ (pyStrip s).data) :
    c ∈ s.data := by
  unfold pyStrip at h
  rw [List.mem_reverse] at h
  have h2 := (List.dropWhile_sublist isPySpace).subset h
  rw [List.mem_reverse] at h2
  exact (List.dropWhile_sublist isPySpace).subset h2

theorem mem_removeCommas {c : Char} {s : String} (h : c ∈ (removeCommas s).data) :
    c ∈ s.data := by
  unfold removeCommas at h
  exact (List.mem_filter.mp h).1

theorem containsChar_false {s : String} {c : Char}
    (h : containsChar s c = false) : c ∉ s.data := by
  intro hm
  unfold containsChar at h
  rw [List.contains_eq_any_beq] at h
  have ha : s.data.any (c == ·) = true := List.any_eq_true.mpr ⟨c, hm, by simp⟩
  rw [ha] at h
  cases h

theorem optMapNat_nonneg {o : Option Nat} {n : Int}
    (h : o.map (fun k : Nat => (k : Int)) = some n) : 0 ≤ n := by
  cases o with
  | none => simp at h
  | some k => simp at h; omega

theorem pyInt_neg {s : String} {n : Int} (h : pyInt s = some n) (hn : n < 0) :
    '-' ∈ (pyStrip s).data := by
  unfold pyInt at h
  rcases hds : (pyStrip s).data with _ | ⟨c, cs⟩
  · rw [hds] at h; cases h
  · rw [hds] at h
    dsimp only at h
    split_ifs at h with h1 h2
    · exact absurd (optMapNat_nonneg h) (by omega)
    · rw [h2]; exact List.mem_cons_self _ _
    · exact absurd (optMapNat_nonneg h) (by omega)

theorem parseMoney_empty (cell : String) (fb : Int) (h : pyStrip cell = "") :
    parseMoney cell fb = fb := by
  unfold parseMoney; rw [if_pos h]

theorem parseMoney_nonneg {cell : String} {fb : Int} (hfb : 0 ≤ fb)
    (h : containsChar cell '-' = false) : 0 ≤ parseMoney cell fb := by
  unfold parseMoney
  split
  · exact hfb
  · cases hpi : pyInt (pyStrip (removeCommas cell)) with
    | none => exact hfb
    | some n =>
      dsimp only
      by_contra hneg
      have hmem := pyInt_neg hpi (by omega)
      exact containsChar_false h
        (mem_removeCommas (mem_pyStrip (mem_pyStrip hmem)))

theorem appParse_some_elim {nfkc : String → String} {row : List String}
    {card service : String} {rec : Rec}
    (h : App.parse_csv_row nfkc row card service = some rec) :
    6 ≤ row.length ∧ pyStrip (row.getD 0 "") ≠ "" ∧
    ∃ u, parseYMD (pyStrip (row.getD 0 "")) = some u ∧
      rec = { used_at := u,
              store := nfkc (App.extract row).store,
              price := parseMoney (row.getD (App.extract row).price_idx "") 0,
              payment := parseMoney (row.getD (App.extract row).payment_amount_idx "")
                (parseMoney (row.getD (App.extract row).price_idx "") 0),
              note := if pyStrip (row.getD (App.extract row).note_idx "") = "" then none
                      else some (nfkc (pyStrip (row.getD (App.extract row).note_idx ""))),
              service := service, card_number := card } := by
  by_cases h1 : row = [] ∨ row.length < 6
  · simp only [App.parse_csv_row, if_pos h1] at h; cases h
  by_cases h2 : row.getD 0 "" = "" ∨ pyStrip (row.getD 0 "") = ""
  · simp only [App.parse_csv_row, if_neg h1, if_pos h2] at h; cases h
  cases hu : parseYMD (pyStrip (row.getD 0 "")) with
  | none => simp only [App.parse_csv_row, if_neg h1, if_neg h2, hu] at h; cases h
  | some u =>
    simp only [App.parse_csv_row, if_neg h1, if_neg h2, hu] at h
    push_neg at h1 h2
    exact ⟨by omega, h2.2, u, rfl, (Option.some.inj h).symm⟩

theorem rootParse_some_elim {nfkc : String → String} {row : List String}
    {card service : String} {rec : Rec}
    (h : Root.parse_csv_row nfkc row card service = some rec) :
    6 ≤ row.length ∧ pyStrip (row.getD 0 "") ≠ "" ∧
    ∃ u, parseYMD (pyStrip (row.getD 0 "")) = some u ∧
      rec = { used_at := u,
              store := nfkc (if 1 < row.length then pyStrip (row.getD 1 "") else ""),
              price := parseMoney (row.getD 2 "") 0,
              payment := parseMoney (row.getD 5 "") (parseMoney (row.getD 2 "") 0),
              note := if pyStrip (row.getD 6 "") = "" then none
                      else some (nfkc (pyStrip (row.getD 6 ""))),
              service := service, card_number := card } := by
  by_cases h1 : row = [] ∨ row.length < 6
  · simp only [Root.parse_csv_row, if_pos h1] at h; cases h
  by_cases h2 : row.getD 0 "" = "" ∨ pyStrip (row.getD 0 "") = ""
  · simp only [Root.parse_csv_row, if_neg h1, if_pos h2] at h; cases h
  cases hu : parseYMD (pyStrip (row.getD 0 "")) with
  | none => simp only [Root.parse_csv_row, if_neg h1, if_neg h2, hu] at h; cases h
  | some u =>
    simp only [Root.parse_csv_row, if_neg h1, if_neg h2, hu] at h
    push_neg at h1 h2
    exact ⟨by omega, h2.2, u, rfl, (Option.some.inj h).symm⟩

theorem daysInMonth_le31 (y m : Nat) : daysInMonth y m ≤ 31 := by
  unfold daysInMonth; split_ifs <;> omega

theorem specStrict_parses {s : String} {d : Date}
    (h : specStrictYMD s = some d) : parseYMD s = some d := by
  obtain ⟨cs⟩ := s
  rcases cs with _ | ⟨y1, cs⟩; · simp [specStrictYMD] at h
  rcases cs with _ | ⟨y2, cs⟩; · simp [specStrictYMD] at h
  rcases cs with _ | ⟨y3, cs⟩; · simp [specStrictYMD] at h
  rcases cs with _ | ⟨y4, cs⟩; · simp [specStrictYMD] at h
  rcases cs with _ | ⟨s1, cs⟩; · simp [specStrictYMD] at h
  rcases cs with _ | ⟨m1, cs⟩; · simp [specStrictYMD] at h
  rcases cs with _ | ⟨m2, cs⟩; · simp [specStrictYMD] at h
  rcases cs with _ | ⟨s2, cs⟩; · simp [specStrictYMD] at h
  rcases cs with _ | ⟨d1, cs⟩; · simp [specStrictYMD] at h
  rcases cs with _ | ⟨d2, cs⟩; · simp [specStrictYMD] at h
  rcases cs with _ | ⟨c11, cs⟩
  case cons.cons.cons.cons.cons.cons.cons.cons.cons.cons.cons =>
    simp [specStrictYMD] at h
  simp only [specStrictYMD] at h
  split_ifs at h with hG hR
  · obtain ⟨hy1, hy2, hy3, hy4, hs1, hm1, hm2, hs2, hd1, hd2⟩ := hG
    subst hs1; subst hs2
    have hd := Option.some.inj h
    subst hd
    unfold isD at hm1 hm2 hd1 hd2
    have hday31 : 10 * dv d1 + dv d2 ≤ 31 :=
      hR.2.2.2.2.trans (daysInMonth_le31 _ _)
    unfold parseYMD
    dsimp only
    rw [if_pos ⟨hy1, hy2, hy3, hy4, rfl⟩]
    dsimp only [parseMonthTok]
    split_ifs with hA hB hC
    · rw [show 10 * dv m1 + dv m2 = 10 + dv m2 from by unfold dv; omega] at hR ⊢
      dsimp only
      rw [if_pos rfl]
      dsimp only [parseDayTok]
      split_ifs with hD hE hF hH
      · rw [show 10 * dv d1 + dv d2 = 30 + dv d2 from by unfold dv; omega] at hR ⊢
        dsimp only
        rw [if_pos ⟨hR.1, hR.2.2.2.1, hR.2.2.2.2⟩]
      · dsimp only
        rw [if_pos ⟨hR.1, hR.2.2.2.1, hR.2.2.2.2⟩]
      · rw [show 10 * dv d1 + dv d2 = dv d2 from by unfold dv; omega] at hR ⊢
        dsimp only
        rw [if_pos ⟨hR.1, hR.2.2.2.1, hR.2.2.2.2⟩]
      · exfalso; unfold dv at hR hday31; omega
      · exfalso; unfold dv at hR hday31; omega
    · rw [show 10 * dv m1 + dv m2 = dv m2 from by unfold dv; omega] at hR ⊢
      dsimp only
      rw [if_pos rfl]
      dsimp only [parseDayTok]
      split_ifs with hD hE hF hH
      · rw [show 10 * dv d1 + dv d2 = 30 + dv d2 from by unfold dv; omega] at hR ⊢
        dsimp only
        rw [if_pos ⟨hR.1, hR.2.2.2.1, hR.2.2.2.2⟩]
      · dsimp only
        rw [if_pos ⟨hR.1, hR.2.2.2.1, hR.2.2.2.2⟩]
      · rw [show 10 * dv d1 + dv d2 = dv d2 from by unfold dv; omega] at hR ⊢
        dsimp only
        rw [if_pos ⟨hR.1, hR.2.2.2.1, hR.2.2.2.2⟩]
      · exfalso; unfold dv at hR hday31; omega
      · exfalso; unfold dv at hR hday31; omega
    · exfalso; unfold dv at hR; omega
    · exfalso; unfold dv at hR; omega

theorem App.parse_service_card {nfkc : String → String} {row : List String}
    {card service : String} {rec : Rec}
    (h : App.parse_csv_row nfkc row card service = some rec) :
    rec.service = service ∧ rec.card_number = card := by
  obtain ⟨-, -, u, -, hrec⟩ := appParse_some_elim h
  rw [hrec]
  exact ⟨rfl, rfl⟩

theorem App.loop_committed {nfkc : String → String} {service fileName : String}
    {now : Nat} {failAt : Nat → Bool} :
    ∀ (stream : List RowEv) (card : String) (k : Nat) (pending : List InsRow)
      (log : List LogMsg) {n : Nat} {p : List InsRow} {lg : List LogMsg},
      App.loop nfkc service fileName now failAt stream card k pending log
        = .committed n p lg →
      ∃ new, p = pending ++ new ∧ n = k + new.length ∧
        ∀ x ∈ new, x.service = service ∧ x.file = fileName := by
  intro stream
  induction stream with
  | nil =>
    intro card k pending log n p lg h
    unfold App.loop at h
    cases h
    exact ⟨[], by simp, by simp, by simp⟩
  | cons ev rest ih =>
    intro card k pending log n p lg h
    cases ev with
    | readErr => unfold App.loop at h; cases h
    | row r =>
      unfold App.loop at h
      by_cases hm : isMarker r
      · rw [if_pos hm] at h
        exact ih _ _ _ _ h
      · rw [if_neg hm] at h
        cases hp : App.parse_csv_row nfkc r card service with
        | none => rw [hp] at h; exact ih _ _ _ _ h
        | some rec =>
          rw [hp] at h
          dsimp only at h
          by_cases hf : failAt k
          · rw [if_pos hf] at h; cases h
          · rw [if_neg hf] at h
            obtain ⟨new, h1, h2, h3⟩ := ih _ _ _ _ h
            refine ⟨toInsRow rec fileName now :: new, by simp [h1],
              by simp [h2]; omega, ?_⟩
            intro x hx
            rcases List.mem_cons.mp hx with hx | hx
            · subst hx
              exact ⟨(App.parse_service_card hp).1, rfl⟩
            · exact h3 x hx

theorem App.loop_noFail (nfkc : String → String) (service fileName : String)
    (now : Nat) :
    ∀ (rows : List (List String)) (card : String) (k : Nat)
      (pending : List InsRow) (log : List LogMsg),
      App.loop nfkc service fileName now (fun _ => false) (rows.map RowEv.row)
          card k pending log
        = .committed (k + (scanRecords nfkc service card rows).length)
            (pending ++ (scanRecords nfkc service card rows).map
              (fun rec => toInsRow rec fileName now))
            (log ++ (scanRecords nfkc service card rows).map
              (fun rec => LogMsg.insertedRow rec.used_at rec.store rec.price)) := by
  intro rows
  induction rows with
  | nil =>
    intro card k pending log
    unfold App.loop scanRecords
    simp
  | cons r rest ih =>
    intro card k pending log
    have hl : (List.map RowEv.row (r :: rest)) = RowEv.row r :: rest.map RowEv.row :=
      List.map_cons ..
    rw [hl]
    unfold App.loop scanRecords
    by_cases hm : isMarker r
    · rw [if_pos hm, if_pos hm]
      exact ih _ _ _ _
    · rw [if_neg hm, if_neg hm]
      cases hp : App.parse_csv_row nfkc r card service with
      | none =>
        exact ih _ _ _ _
      | some rec =>
        dsimp only
        rw [if_neg (by simp)]
        rw [ih _ _ _ _]
        congr 1
        · simp; omega
        · simp
        · simp

theorem cardAfter_cons (card : String) (r : List String) (rows : List (List String)) :
    cardAfter card (r :: rows) = cardAfter (cardStep card r) rows := by
  unfold cardAfter
  rw [List.foldl_cons]

theorem scanRecords_cons (nfkc : String → String) (service card : String)
    (r : List String) (rows : List (List String)) :
    scanRecords nfkc service card (r :: rows)
      = if isMarker r then scanRecords nfkc service (pyStrip (r.getD 1 "")) rows
        else
          match App.parse_csv_row nfkc r card service with
          | none => scanRecords nfkc service card rows
          | some rec => rec :: scanRecords nfkc service card rows := rfl

theorem scanRecords_append (nfkc : String → String) (service : String) :
    ∀ (pre post : List (List String)) (card : String),
      scanRecords nfkc service card (pre ++ post)
        = scanRecords nfkc service card pre
          ++ scanRecords nfkc service (cardAfter card pre) post := by
  intro pre
  induction pre with
  | nil => intro post card; simp [scanRecords, cardAfter]
  | cons r rest ih =>
    intro post card
    rw [List.cons_append, scanRecords_cons, scanRecords_cons, cardAfter_cons]
    unfold cardStep
    by_cases hm : isMarker r
    · rw [if_pos hm, if_pos hm, if_pos hm]
      exact ih _ _
    · rw [if_neg hm, if_neg hm, if_neg hm]
      cases hp : App.parse_csv_row nfkc r card service with
      | none => dsimp only; exact ih _ _
      | some rec => dsimp only; rw [ih _ _, List.cons_append]

/-! ## The claims -/

/-- Claim C1: if a prior import under the same (service, basename) key already
has at least one row in the table, import_csv_to_mysql returns 0 immediately,
performs zero inserts and leaves the table unchanged, emitting only the
skipped message; in particular, re-running it after any run that returned
normally inserts nothing and leaves the table unchanged. -/
theorem C1_dedup_idempotent :
    (∀ (nfkc : String → String) (table : Table) (csvFile service : String)
       (stream : List RowEv) (failAt : Nat → Bool) (now : Nat),
       0 < (table.filter (matchesKey service (basename csvFile))).length →
       App.import_csv_to_mysql nfkc table csvFile service stream failAt now
         = { res := .ret 0, table := table,
             log := [.skipped service (basename csvFile)] })
    ∧ (∀ (nfkc : String → String) (table : Table) (csvFile service : String)
         (stream : List RowEv) (failAt : Nat → Bool) (now : Nat)
         (n : Nat) (t : Table) (lg : List LogMsg),
         App.import_csv_to_mysql nfkc table csvFile service stream failAt now
           = { res := .ret n, table := t, log := lg } →
         ∃ lg2, App.import_csv_to_mysql nfkc t csvFile service stream failAt now
           = { res := .ret 0, table := t, log := lg2 }) := by
  constructor
  · intro nfkc table csvFile service stream failAt now hdup
    unfold App.import_csv_to_mysql
    rw [if_pos hdup]
  · intro nfkc table csvFile service stream failAt now n t lg h
    unfold App.import_csv_to_mysql at h ⊢
    by_cases hdup : 0 < (table.filter (matchesKey service (basename csvFile))).length
    · rw [if_pos hdup] at h
      rw [ImportOut.mk.injEq] at h
      obtain ⟨h1, h2, h3⟩ := h
      subst h2
      exact ⟨_, by rw [if_pos hdup]⟩
    · rw [if_neg hdup] at h
      cases hl : App.loop nfkc service (basename csvFile) now failAt stream "" 0 [] [] with
      | committed m pend lg0 =>
        rw [hl] at h
        rw [ImportOut.mk.injEq] at h
        obtain ⟨h1, h2, h3⟩ := h
        obtain ⟨new, hnew, hcount, hkey⟩ := App.loop_committed _ _ _ _ _ hl
        rw [List.nil_append] at hnew
        subst hnew
        cases hp : pend with
        | nil =>
          subst hp
          rw [List.append_nil] at h2
          subst h2
          have hm0 : m = 0 := by simpa using hcount
          subst hm0
          refine ⟨lg0 ++ [LogMsg.totalInserted 0], ?_⟩
          rw [if_neg hdup, hl]
          simp
        | cons x xs =>
          subst hp
          have hx := hkey x (List.mem_cons_self x xs)
          have hxk : matchesKey service (basename csvFile) x = true :=
            decide_eq_true ⟨hx.1, hx.2⟩
          have hpos : 0 < (t.filter (matchesKey service (basename csvFile))).length := by
            rw [← h2, List.filter_append, List.filter_cons, if_pos hxk]
            simp
          refine ⟨[LogMsg.skipped service (basename csvFile)], ?_⟩
          rw [if_pos hpos]
      | dbError lg0 =>
        rw [hl] at h
        rw [ImportOut.mk.injEq] at h
        obtain ⟨h1, h2, h3⟩ := h
        subst h2
        refine ⟨lg0 ++ [LogMsg.dbError], ?_⟩
        rw [if_neg hdup, hl]
      | uncaughtExc lg0 =>
        rw [hl] at h
        rw [ImportOut.mk.injEq] at h
        exact absurd h.1 (by simp)

/-- Witness for C1 at concrete inputs: a table that already holds a row with
service vpass and file f.csv makes the import return 0 and leave the table
as is; and re-running the import after a successful one-row import inserts
nothing. -/
theorem C1_witness :
    (App.import_csv_to_mysql id
        [⟨⟨2024, 1, 15⟩, "S", 1, 1, none, "vpass", "f.csv", 0, 0⟩]
        "data/f.csv" "vpass" [] (fun _ => false) 5
      = { res := .ret 0,
          table := [⟨⟨2024, 1, 15⟩, "S", 1, 1, none, "vpass", "f.csv", 0, 0⟩],
          log := [.skipped "vpass" "f.csv"] })
    ∧ ∃ lg2, App.import_csv_to_mysql id
        [⟨⟨2024, 1, 15⟩, "S", 1, 2, none, "vpass", "g.csv", 5, 5⟩]
        "data/g.csv" "vpass"
        [.row ["2024/01/15", "S", "1", "1", "1", "2"]] (fun _ => false) 5
      = { res := .ret 0,
          table := [⟨⟨2024, 1, 15⟩, "S", 1, 2, none, "vpass", "g.csv", 5, 5⟩],
          log := lg2 } :=
  ⟨C1_dedup_idempotent.1 id _ "data/f.csv" "vpass" [] (fun _ => false) 5 (by decide),
   C1_dedup_idempotent.2 id [] "data/g.csv" "vpass"
     [.row ["2024/01/15", "S", "1", "1", "1", "2"]] (fun _ => false) 5 1
     [⟨⟨2024, 1, 15⟩, "S", 1, 2, none, "vpass", "g.csv", 5, 5⟩]
     [.insertedRow ⟨2024, 1, 15⟩ "S" 1, .totalInserted 1]
     (by decide)⟩

/-- Claim C2: for a Data row of width W greater than 7, the extractor joins the
trimmed cells at indices 1 through W-6 with a comma-and-space separator as
the store name, and takes price, payment count, installment count, payment
amount and note from the last five cells counted from the end of the row. -/
theorem C2_wide_row_extraction :
    ∀ (row : List String), 7 < row.length →
      ((App.extract row).store
          = String.intercalate ", " (((row.drop 1).take (row.length - 6)).map pyStrip)
        ∧ (App.extract row).price_idx = row.length - 5
        ∧ (App.extract row).payment_count_idx = row.length - 4
        ∧ (App.extract row).installment_count_idx = row.length - 3
        ∧ (App.extract row).payment_amount_idx = row.length - 2
        ∧ (App.extract row).note_idx = row.length - 1)
      ∧ ∀ (nfkc : String → String) (card service : String) (rec : Rec),
          App.parse_csv_row nfkc row card service = some rec →
          rec.store = nfkc (String.intercalate ", "
            (((row.drop 1).take (row.length - 6)).map pyStrip))
          ∧ rec.price = parseMoney (row.reverse.getD 4 "") 0
          ∧ rec.payment = parseMoney (row.reverse.getD 1 "") rec.price
          ∧ rec.note = (if pyStrip (row.reverse.getD 0 "") = "" then none
                        else some (nfkc (pyStrip (row.reverse.getD 0 "")))) := by
  intro row h7
  have he : App.extract row
      = { store := String.intercalate ", "
            ((List.range' 1 (row.length - 5 - 1)).map (fun i => pyStrip (row.getD i ""))),
          price_idx := row.length - 5,
          payment_count_idx := row.length - 4,
          installment_count_idx := row.length - 3,
          payment_amount_idx := row.length - 2,
          note_idx := row.length - 1 } := by
    unfold App.extract; rw [if_pos h7]
  have hstore : (App.extract row).store
      = String.intercalate ", " (((row.drop 1).take (row.length - 6)).map pyStrip) := by
    rw [he]
    dsimp only
    congr 1
    have hlen : row.length - 5 - 1 = row.length - 6 := by omega
    rw [hlen]
    have hfun : (fun i => pyStrip (row.getD i ""))
        = pyStrip ∘ (fun i => row.getD i "") := rfl
    rw [hfun, ← List.map_map, rangeMapGetD "" (row.length - 6) 1 row (by omega)]
  have h4r : row.reverse.getD 4 "" = row.getD (row.length - 5) "" := by
    rw [getD_reverse "" row 4 (by omega),
      show row.length - 1 - 4 = row.length - 5 from by omega]
  have h1r : row.reverse.getD 1 "" = row.getD (row.length - 2) "" := by
    rw [getD_reverse "" row 1 (by omega),
      show row.length - 1 - 1 = row.length - 2 from by omega]
  have h0r : row.reverse.getD 0 "" = row.getD (row.length - 1) "" := by
    rw [getD_reverse "" row 0 (by omega), Nat.sub_zero]
  refine ⟨⟨hstore, by rw [he], by rw [he], by rw [he], by rw [he], by rw [he]⟩, ?_⟩
  intro nfkc card service rec hp
  obtain ⟨-, -, u, hu, hrec⟩ := appParse_some_elim hp
  subst hrec
  dsimp only
  refine ⟨by rw [hstore], ?_, ?_, ?_⟩
  · rw [he, h4r]
  · rw [he, h1r]
  · rw [he, h0r]

/-- Witness for C2 at the spec scenario row of width 9 (store split over
three cells). -/
theorem C2_witness :
    (App.extract ["2024/01/15", "Coffee Shop", " Main St", " Annex", "1,200",
        "1", "1", "1,200", "tip"]).store
      = String.intercalate ", "
          (((["2024/01/15", "Coffee Shop", " Main St", " Annex", "1,200",
              "1", "1", "1,200", "tip"].drop 1).take (9 - 6)).map pyStrip) :=
  ((C2_wide_row_extraction
    ["2024/01/15", "Coffee Shop", " Main St", " Annex", "1,200",
      "1", "1", "1,200", "tip"] (by decide)).1).1

/-- Counterexample to claim C4: Python int() accepts a leading minus sign, so
a price cell holding -500 produces a record whose price and payment are the
negative integer -500; price and payment are not always non-negative. -/
theorem C4_counterexample :
    App.parse_csv_row id ["2024/01/15", "Store", "-500", "1", "1", "", ""]
        "" "vpass"
      = some ⟨⟨2024, 1, 15⟩, "Store", -500, -500, none, "vpass", ""⟩
    ∧ (-500 : Int) < 0 := by decide

/-- Claim C4 as amended: price and payment are always defined integers, never
an error: an empty price cell yields 0, an empty payment cell yields the
resolved price, and both are non-negative whenever the respective cells do
not contain a minus character. -/
theorem C4_amended_defaults :
    ∀ (nfkc : String → String) (row : List String) (card service : String)
      (rec : Rec),
      (App.parse_csv_row nfkc row card service = some rec →
        rec.price = parseMoney (row.getD (App.extract row).price_idx "") 0
        ∧ rec.payment = parseMoney (row.getD (App.extract row).payment_amount_idx "") rec.price
        ∧ (pyStrip (row.getD (App.extract row).price_idx "") = "" → rec.price = 0)
        ∧ (pyStrip (row.getD (App.extract row).payment_amount_idx "") = "" →
            rec.payment = rec.price)
        ∧ (containsChar (row.getD (App.extract row).price_idx "") '-' = false →
            0 ≤ rec.price)
        ∧ (containsChar (row.getD (App.extract row).price_idx "") '-' = false →
           containsChar (row.getD (App.extract row).payment_amount_idx "") '-' = false →
            0 ≤ rec.payment))
      ∧ (Root.parse_csv_row nfkc row card service = some rec →
        rec.price = parseMoney (row.getD 2 "") 0
        ∧ rec.payment = parseMoney (row.getD 5 "") rec.price
        ∧ (pyStrip (row.getD 2 "") = "" → rec.price = 0)
        ∧ (pyStrip (row.getD 5 "") = "" → rec.payment = rec.price)
        ∧ (containsChar (row.getD 2 "") '-' = false → 0 ≤ rec.price)
        ∧ (containsChar (row.getD 2 "") '-' = false →
           containsChar (row.getD 5 "") '-' = false → 0 ≤ rec.payment)) := by
  intro nfkc row card service rec
  constructor
  · intro hp
    obtain ⟨-, -, u, hu, hrec⟩ := appParse_some_elim hp
    subst hrec
    dsimp only
    refine ⟨rfl, rfl, ?_, ?_, ?_, ?_⟩
    · intro hc; rw [parseMoney_empty _ _ hc]
    · intro hc; rw [parseMoney_empty _ _ hc]
    · intro hc; exact parseMoney_nonneg le_rfl hc
    · intro hc1 hc2; exact parseMoney_nonneg (parseMoney_nonneg le_rfl hc1) hc2
  · intro hp
    obtain ⟨-, -, u, hu, hrec⟩ := rootParse_some_elim hp
    subst hrec
    dsimp only
    refine ⟨rfl, rfl, ?_, ?_, ?_, ?_⟩
    · intro hc; rw [parseMoney_empty _ _ hc]
    · intro hc; rw [parseMoney_empty _ _ hc]
    · intro hc; exact parseMoney_nonneg le_rfl hc
    · intro hc1 hc2; exact parseMoney_nonneg (parseMoney_nonneg le_rfl hc1) hc2

/-- Witness for the amended C4 at a concrete row with empty price and payment
cells: both defaults fire and the values are non-negative. -/
theorem C4_witness :
    App.parse_csv_row id ["2024/01/15", "Store", "", "1", "1", "", ""] "" "vpass"
      = some ⟨⟨2024, 1, 15⟩, "Store", 0, 0, none, "vpass", ""⟩
    ∧ (0 : Int) = 0 ∧ (0 : Int) ≤ 0 := by
  refine ⟨by decide, ?_, ?_⟩
  · exact ((C4_amended_defaults id ["2024/01/15", "Store", "", "1", "1", "", ""]
      "" "vpass" ⟨⟨2024, 1, 15⟩, "Store", 0, 0, none, "vpass", ""⟩).1
      (by decide)).2.2.1 (by decide)
  · exact ((C4_amended_defaults id ["2024/01/15", "Store", "", "1", "1", "", ""]
      "" "vpass" ⟨⟨2024, 1, 15⟩, "Store", 0, 0, none, "vpass", ""⟩).1
      (by decide)).2.2.2.2.1 (by decide)

/-- Claim C5: in both implementations, if the payment-amount cell of a parsed
data row is empty or whitespace-only, the built record's payment equals its
price, whatever value the price resolved to. -/
theorem C5_payment_fallback :
    ∀ (nfkc : String → String) (row : List String) (card service : String)
      (rec : Rec),
      (App.parse_csv_row nfkc row card service = some rec →
        pyStrip (row.getD (App.extract row).payment_amount_idx "") = "" →
        rec.payment = rec.price)
      ∧ (Root.parse_csv_row nfkc row card service = some rec →
        pyStrip (row.getD 5 "") = "" →
        rec.payment = rec.price) := by
  intro nfkc row card service rec
  constructor
  · intro hp hc
    obtain ⟨-, -, u, hu, hrec⟩ := appParse_some_elim hp
    subst hrec
    dsimp only
    rw [parseMoney_empty _ _ hc]
  · intro hp hc
    obtain ⟨-, -, u, hu, hrec⟩ := rootParse_some_elim hp
    subst hrec
    dsimp only
    rw [parseMoney_empty _ _ hc]

/-- Witness for C5 at the spec scenario: price 500, empty payment cell, so
payment is 500 as well. -/
theorem C5_witness :
    App.parse_csv_row id ["2024/02/01", "Store A", "500", "1", "1", "", ""]
        "1234-****-****-5678" "vpass"
      = some ⟨⟨2024, 2, 1⟩, "Store A", 500, 500, none, "vpass",
          "1234-****-****-5678"⟩
    ∧ (500 : Int) = 500 := by
  refine ⟨by decide, ?_⟩
  exact (C5_payment_fallback id ["2024/02/01", "Store A", "500", "1", "1", "", ""]
    "1234-****-****-5678" "vpass"
    ⟨⟨2024, 2, 1⟩, "Store A", 500, 500, none, "vpass", "1234-****-****-5678"⟩).1
    (by decide) (by decide)

theorem mainLoop_cons (nfkc : String → String) (service : String) (now : Nat)
    (table : Table) (job : FileJob) (rest : List FileJob) :
    mainLoop nfkc service now table (job :: rest)
      = (match (App.import_csv_to_mysql nfkc table job.path service job.stream
            job.failAt now).res with
         | .ret n =>
           { completed := (mainLoop nfkc service now
               (App.import_csv_to_mysql nfkc table job.path service job.stream
                 job.failAt now).table rest).completed,
             total := n + (mainLoop nfkc service now
               (App.import_csv_to_mysql nfkc table job.path service job.stream
                 job.failAt now).table rest).total,
             table := (mainLoop nfkc service now
               (App.import_csv_to_mysql nfkc table job.path service job.stream
                 job.failAt now).table rest).table,
             log := (App.import_csv_to_mysql nfkc table job.path service job.stream
                 job.failAt now).log
               ++ (mainLoop nfkc service now
                 (App.import_csv_to_mysql nfkc table job.path service job.stream
                   job.failAt now).table rest).log }
         | .uncaught =>
           { completed := false, total := 0,
             table := (App.import_csv_to_mysql nfkc table job.path service
               job.stream job.failAt now).table,
             log := (App.import_csv_to_mysql nfkc table job.path service
               job.stream job.failAt now).log }) := rfl

theorem App.loop_cons_row (nfkc : String → String) (service fileName : String)
    (now : Nat) (failAt : Nat → Bool) (r : List String) (rest : List RowEv)
    (card : String) (k : Nat) (pending : List InsRow) (log : List LogMsg) :
    App.loop nfkc service fileName now failAt (.row r :: rest) card k pending log
      = if isMarker r then
          App.loop nfkc service fileName now failAt rest (pyStrip (r.getD 1 "")) k pending log
        else match App.parse_csv_row nfkc r card service with
          | none => App.loop nfkc service fileName now failAt rest card k pending log
          | some rec =>
            if failAt k then .dbError log
            else App.loop nfkc service fileName now failAt rest card (k + 1)
              (pending ++ [toInsRow rec fileName now])
              (log ++ [.insertedRow rec.used_at rec.store rec.price]) := rfl

/-- Claim C3: during one file scan the carried card number starts empty, each
marker row overwrites it with the trimmed second cell and emits no record,
non-marker rows leave it unchanged, every emitted record carries the card
number held when its row was processed, and each import call runs the scan
from the empty string, so nothing persists across files. -/
theorem C3_card_state :
    (∀ (nfkc : String → String) (service card : String)
       (pre post : List (List String)),
       scanRecords nfkc service card (pre ++ post)
         = scanRecords nfkc service card pre
           ++ scanRecords nfkc service (cardAfter card pre) post)
    ∧ (∀ (nfkc : String → String) (service card : String) (r : List String)
         (rows : List (List String)),
         isMarker r = true →
         scanRecords nfkc service card (r :: rows)
             = scanRecords nfkc service (pyStrip (r.getD 1 "")) rows
           ∧ cardAfter card (r :: rows)
             = cardAfter (pyStrip (r.getD 1 "")) rows)
    ∧ (∀ (nfkc : String → String) (service card : String) (r : List String)
         (rows : List (List String)),
         isMarker r = false →
         cardAfter card (r :: rows) = cardAfter card rows
         ∧ (App.parse_csv_row nfkc r card service = none →
             scanRecords nfkc service card (r :: rows)
               = scanRecords nfkc service card rows)
         ∧ (∀ rec, App.parse_csv_row nfkc r card service = some rec →
             scanRecords nfkc service card (r :: rows)
               = rec :: scanRecords nfkc service card rows
             ∧ rec.card_number = card))
    ∧ (∀ (nfkc : String → String) (table : Table) (csvFile service : String)
         (rows : List (List String)) (now : Nat),
         ¬ 0 < (table.filter (matchesKey service (basename csvFile))).length →
         App.import_csv_to_mysql nfkc table csvFile service
             (rows.map RowEv.row) (fun _ => false) now
           = { res := .ret (scanRecords nfkc service "" rows).length,
               table := table ++ (scanRecords nfkc service "" rows).map
                 (fun rec => toInsRow rec (basename csvFile) now),
               log := (scanRecords nfkc service "" rows).map
                   (fun rec => LogMsg.insertedRow rec.used_at rec.store rec.price)
                 ++ [.totalInserted (scanRecords nfkc service "" rows).length] }) := by
  refine ⟨?_, ?_, ?_, ?_⟩
  · intro nfkc service card pre post
    exact scanRecords_append nfkc service pre post card
  · intro nfkc service card r rows hm
    constructor
    · rw [scanRecords_cons, if_pos hm]
    · rw [cardAfter_cons]
      unfold cardStep
      rw [if_pos hm]
  · intro nfkc service card r rows hm
    have hm2 : ¬ (isMarker r = true) := by simp [hm]
    refine ⟨?_, ?_, ?_⟩
    · rw [cardAfter_cons]
      unfold cardStep
      rw [if_neg hm2]
    · intro hp
      rw [scanRecords_cons, if_neg hm2, hp]
    · intro rec hp
      refine ⟨?_, (App.parse_service_card hp).2⟩
      rw [scanRecords_cons, if_neg hm2, hp]
  · intro nfkc table csvFile service rows now hdup
    unfold App.import_csv_to_mysql
    rw [if_neg hdup, App.loop_noFail]
    simp

/-- Witness for C3: a marker row followed by a data row, scanned from the
empty card state, and the corresponding one-file import. -/
theorem C3_witness :
    (scanRecords id "vpass" ""
         (["", "1234-****-****-5678"]
           :: [["2024/02/01", "Store A", "500", "1", "1", "", ""]])
       = scanRecords id "vpass" (pyStrip (["", "1234-****-****-5678"].getD 1 ""))
           [["2024/02/01", "Store A", "500", "1", "1", "", ""]]
     ∧ cardAfter ""
         (["", "1234-****-****-5678"]
           :: [["2024/02/01", "Store A", "500", "1", "1", "", ""]])
       = cardAfter (pyStrip (["", "1234-****-****-5678"].getD 1 ""))
           [["2024/02/01", "Store A", "500", "1", "1", "", ""]])
    ∧ App.import_csv_to_mysql id [] "data/x.csv" "vpass"
        ([["", "1234-****-****-5678"],
          ["2024/02/01", "Store A", "500", "1", "1", "", ""]].map RowEv.row)
        (fun _ => false) 3
      = { res := .ret (scanRecords id "vpass" ""
            [["", "1234-****-****-5678"],
             ["2024/02/01", "Store A", "500", "1", "1", "", ""]]).length,
          table := [] ++ (scanRecords id "vpass" ""
            [["", "1234-****-****-5678"],
             ["2024/02/01", "Store A", "500", "1", "1", "", ""]]).map
              (fun rec => toInsRow rec (basename "data/x.csv") 3),
          log := (scanRecords id "vpass" ""
              [["", "1234-****-****-5678"],
               ["2024/02/01", "Store A", "500", "1", "1", "", ""]]).map
                (fun rec => LogMsg.insertedRow rec.used_at rec.store rec.price)
            ++ [.totalInserted (scanRecords id "vpass" ""
                 [["", "1234-****-****-5678"],
                  ["2024/02/01", "Store A", "500", "1", "1", "", ""]]).length] } :=
  ⟨C3_card_state.2.1 id "vpass" "" ["", "1234-****-****-5678"]
     [["2024/02/01", "Store A", "500", "1", "1", "", ""]] (by decide),
   C3_card_state.2.2.2 id [] "data/x.csv" "vpass"
     [["", "1234-****-****-5678"],
      ["2024/02/01", "Store A", "500", "1", "1", "", ""]] 3 (by decide)⟩

/-- Counterexample to claim C6: strptime with format %Y/%m/%d also accepts
non-zero-padded months and days, so the representation 2024/1/5, which is not
of the strict YYYY/MM/DD shape, parses successfully and yields a record. -/
theorem C6_counterexample :
    parseYMD "2024/1/5" = some ⟨2024, 1, 5⟩
    ∧ specStrictYMD "2024/1/5" = none
    ∧ App.parse_csv_row id ["2024/1/5", "Store", "500", "1", "1", ""] "" "vpass"
      = some ⟨⟨2024, 1, 5⟩, "Store", 500, 500, none, "vpass", ""⟩ := by decide

/-- Claim C6 as amended: the date is parsed from the trimmed cell 0 with
strptime's %Y/%m/%d (exactly four year digits, one or two month and day
digits, calendar-validated); every strict YYYY/MM/DD date parses, and a row
whose cell 0 is absent, empty or unparseable yields no record instead of an
error, in both implementations. -/
theorem C6_amended_strptime :
    (∀ (s : String) (d : Date), specStrictYMD s = some d → parseYMD s = some d)
    ∧ (∀ (nfkc : String → String) (row : List String) (card service : String),
        (row.length < 6 →
          App.parse_csv_row nfkc row card service = none
          ∧ Root.parse_csv_row nfkc row card service = none)
        ∧ (pyStrip (row.getD 0 "") = "" →
          App.parse_csv_row nfkc row card service = none
          ∧ Root.parse_csv_row nfkc row card service = none)
        ∧ (parseYMD (pyStrip (row.getD 0 "")) = none →
          App.parse_csv_row nfkc row card service = none
          ∧ Root.parse_csv_row nfkc row card service = none)
        ∧ (∀ rec, App.parse_csv_row nfkc row card service = some rec →
            parseYMD (pyStrip (row.getD 0 "")) = some rec.used_at)) := by
  constructor
  · intro s d h
    exact specStrict_parses h
  · intro nfkc row card service
    refine ⟨?_, ?_, ?_, ?_⟩
    · intro h
      constructor
      · simp only [App.parse_csv_row, if_pos (Or.inr h)]
      · simp only [Root.parse_csv_row, if_pos (Or.inr h)]
    · intro h
      by_cases h1 : row = [] ∨ row.length < 6
      · constructor
        · simp only [App.parse_csv_row, if_pos h1]
        · simp only [Root.parse_csv_row, if_pos h1]
      · constructor
        · simp only [App.parse_csv_row, if_neg h1, if_pos (Or.inr h)]
        · simp only [Root.parse_csv_row, if_neg h1, if_pos (Or.inr h)]
    · intro h
      by_cases h1 : row = [] ∨ row.length < 6
      · constructor
        · simp only [App.parse_csv_row, if_pos h1]
        · simp only [Root.parse_csv_row, if_pos h1]
      · by_cases h2 : row.getD 0 "" = "" ∨ pyStrip (row.getD 0 "") = ""
        · constructor
          · simp only [App.parse_csv_row, if_neg h1, if_pos h2]
          · simp only [Root.parse_csv_row, if_neg h1, if_pos h2]
        · constructor
          · simp only [App.parse_csv_row, if_neg h1, if_neg h2, h]
          · simp only [Root.parse_csv_row, if_neg h1, if_neg h2, h]
    · intro rec hp
      obtain ⟨-, -, u, hu, hrec⟩ := appParse_some_elim hp
      subst hrec
      exact hu

/-- Witness for the amended C6: a strictly formatted date parses, and a row
with out-of-range month is silently excluded. -/
theorem C6_witness :
    parseYMD "2024/01/15" = some ⟨2024, 1, 15⟩
    ∧ App.parse_csv_row id ["2024/13/05", "S", "1", "1", "1", "2"] "" "vpass"
      = none :=
  ⟨C6_amended_strptime.1 "2024/01/15" ⟨2024, 1, 15⟩ (by decide),
   ((C6_amended_strptime.2 id ["2024/13/05", "S", "1", "1", "1", "2"]
      "" "vpass").2.2.1 (by decide)).1⟩

/-- Claim C7: the marker test runs before any length or date check, so every
row with at least two cells whose second cell is non-empty and contains both
a hyphen and an asterisk is consumed as a marker row, updating the carried
card number to the trimmed second cell and emitting nothing, whatever the
rest of the row looks like. -/
theorem C7_marker_first :
    ∀ (nfkc : String → String) (service fileName : String) (now : Nat)
      (failAt : Nat → Bool) (r : List String) (rest : List RowEv)
      (card : String) (k : Nat) (pending : List InsRow) (log : List LogMsg),
      1 < r.length → r.getD 1 "" ≠ "" →
      containsChar (r.getD 1 "") '-' = true →
      containsChar (r.getD 1 "") '*' = true →
      isMarker r = true
      ∧ App.loop nfkc service fileName now failAt (.row r :: rest) card k pending log
        = App.loop nfkc service fileName now failAt rest (pyStrip (r.getD 1 ""))
            k pending log := by
  intro nfkc service fileName now failAt r rest card k pending log hlen hne hdash hstar
  have hm : isMarker r = true := by
    unfold isMarker
    rw [hdash, hstar, decide_eq_true hlen, decide_eq_true hne]
    rfl
  exact ⟨hm, by rw [App.loop_cons_row, if_pos hm]⟩

/-- Witness for C7: a three-cell row with a masked card number in cell 1 (no
valid date, fewer than six cells) is still consumed as a marker. -/
theorem C7_witness :
    isMarker ["", "12-*", "x"] = true
    ∧ App.loop id "vpass" "f.csv" 0 (fun _ => false)
        [RowEv.row ["", "12-*", "x"]] "" 0 [] []
      = App.loop id "vpass" "f.csv" 0 (fun _ => false) []
          (pyStrip (["", "12-*", "x"].getD 1 "")) 0 [] [] :=
  C7_marker_first id "vpass" "f.csv" 0 (fun _ => false) ["", "12-*", "x"] [] "" 0 [] []
    (by decide) (by decide) (by decide) (by decide)

/-- Counterexample to claim C8: the integer returned by import_csv_to_mysql is
0 for a duplicate skip, for a successfully processed file with zero valid
rows, and for a failed import alike, so the three statuses are not
distinguishable at the operation's result; only the printed report differs. -/
theorem C8_counterexample :
    (App.import_csv_to_mysql id
        [⟨⟨2024, 1, 15⟩, "S", 1, 1, none, "vpass", "a.csv", 0, 0⟩] "a.csv" "vpass"
        [] (fun _ => false) 0).res = PyResult.ret 0
    ∧ (App.import_csv_to_mysql id [] "b.csv" "vpass"
        [.row ["", "Header", "", "", "", ""]] (fun _ => false) 0).res
      = PyResult.ret 0
    ∧ (App.import_csv_to_mysql id [] "c.csv" "vpass"
        [.row ["2024/01/15", "S", "1", "1", "1", "2"]] (fun _ => true) 0).res
      = PyResult.ret 0
    ∧ (App.import_csv_to_mysql id
        [⟨⟨2024, 1, 15⟩, "S", 1, 1, none, "vpass", "a.csv", 0, 0⟩] "a.csv" "vpass"
        [] (fun _ => false) 0).log = [.skipped "vpass" "a.csv"]
    ∧ (App.import_csv_to_mysql id [] "b.csv" "vpass"
        [.row ["", "Header", "", "", "", ""]] (fun _ => false) 0).log
      = [.totalInserted 0]
    ∧ (App.import_csv_to_mysql id [] "c.csv" "vpass"
        [.row ["2024/01/15", "S", "1", "1", "1", "2"]] (fun _ => true) 0).log
      = [.dbError] := by decide

/-- Claim C8 as amended: the duplicate skip, the completed file (including one
with zero valid rows) and the database failure are distinguishable in the
file's printed report, whose last message determines the branch taken, even
though the returned integer is 0 in several of these cases. -/
theorem C8_amended_report :
    ∀ (nfkc : String → String) (table : Table) (csvFile service : String)
      (stream : List RowEv) (failAt : Nat → Bool) (now : Nat),
      (0 < (table.filter (matchesKey service (basename csvFile))).length →
        (App.import_csv_to_mysql nfkc table csvFile service stream failAt now).res
          = .ret 0
        ∧ reportOf (App.import_csv_to_mysql nfkc table csvFile service stream
            failAt now).log = some .dupSkip)
      ∧ (∀ (n : Nat) (pend : List InsRow) (lg0 : List LogMsg),
          ¬ 0 < (table.filter (matchesKey service (basename csvFile))).length →
          App.loop nfkc service (basename csvFile) now failAt stream "" 0 [] []
            = .committed n pend lg0 →
          (App.import_csv_to_mysql nfkc table csvFile service stream failAt now).res
            = .ret n
          ∧ reportOf (App.import_csv_to_mysql nfkc table csvFile service stream
              failAt now).log = some (.finished n))
      ∧ (∀ (lg0 : List LogMsg),
          ¬ 0 < (table.filter (matchesKey service (basename csvFile))).length →
          App.loop nfkc service (basename csvFile) now failAt stream "" 0 [] []
            = .dbError lg0 →
          (App.import_csv_to_mysql nfkc table csvFile service stream failAt now).res
            = .ret 0
          ∧ (App.import_csv_to_mysql nfkc table csvFile service stream failAt now).table
            = table
          ∧ reportOf (App.import_csv_to_mysql nfkc table csvFile service stream
              failAt now).log = some .failed)
      ∧ (∀ n, FileReport.dupSkip ≠ FileReport.finished n
          ∧ FileReport.dupSkip ≠ FileReport.failed
          ∧ FileReport.finished n ≠ FileReport.failed) := by
  intro nfkc table csvFile service stream failAt now
  refine ⟨?_, ?_, ?_, ?_⟩
  · intro hdup
    unfold App.import_csv_to_mysql
    rw [if_pos hdup]
    exact ⟨rfl, rfl⟩
  · intro n pend lg0 hdup hl
    unfold App.import_csv_to_mysql
    rw [if_neg hdup, hl]
    refine ⟨rfl, ?_⟩
    unfold reportOf
    rw [List.getLast?_concat]
  · intro lg0 hdup hl
    unfold App.import_csv_to_mysql
    rw [if_neg hdup, hl]
    refine ⟨rfl, rfl, ?_⟩
    unfold reportOf
    rw [List.getLast?_concat]
  · intro n
    exact ⟨fun h => FileReport.noConfusion h, fun h => FileReport.noConfusion h,
      fun h => FileReport.noConfusion h⟩

/-- Witness for the amended C8 at concrete runs of the three kinds. -/
theorem C8_witness :
    ((App.import_csv_to_mysql id
        [⟨⟨2024, 1, 15⟩, "T", 2, 2, none, "vpass", "d.csv", 1, 1⟩] "d.csv" "vpass"
        [] (fun _ => false) 1).res = .ret 0
      ∧ reportOf (App.import_csv_to_mysql id
        [⟨⟨2024, 1, 15⟩, "T", 2, 2, none, "vpass", "d.csv", 1, 1⟩] "d.csv" "vpass"
        [] (fun _ => false) 1).log = some .dupSkip)
    ∧ ((App.import_csv_to_mysql id [] "e.csv" "vpass"
        [.row ["", "Header", "", "", "", ""]] (fun _ => false) 1).res = .ret 0
      ∧ reportOf (App.import_csv_to_mysql id [] "e.csv" "vpass"
        [.row ["", "Header", "", "", "", ""]] (fun _ => false) 1).log
        = some (.finished 0))
    ∧ ((App.import_csv_to_mysql id [] "g.csv" "vpass"
        [.row ["2024/01/15", "S", "1", "1", "1", "2"]] (fun _ => true) 1).res
        = .ret 0
      ∧ (App.import_csv_to_mysql id [] "g.csv" "vpass"
        [.row ["2024/01/15", "S", "1", "1", "1", "2"]] (fun _ => true) 1).table
        = []
      ∧ reportOf (App.import_csv_to_mysql id [] "g.csv" "vpass"
        [.row ["2024/01/15", "S", "1", "1", "1", "2"]] (fun _ => true) 1).log
        = some .failed) :=
  ⟨(C8_amended_report id
      [⟨⟨2024, 1, 15⟩, "T", 2, 2, none, "vpass", "d.csv", 1, 1⟩] "d.csv" "vpass"
      [] (fun _ => false) 1).1 (by decide),
   (C8_amended_report id [] "e.csv" "vpass"
      [.row ["", "Header", "", "", "", ""]] (fun _ => false) 1).2.1 0 [] []
      (by decide) (by decide),
   (C8_amended_report id [] "g.csv" "vpass"
      [.row ["2024/01/15", "S", "1", "1", "1", "2"]] (fun _ => true) 1).2.2.1 []
      (by decide) (by decide)⟩

/-- Counterexample to claim C9: a decoding failure while reading the first
file raises an exception that is not a mysql.connector.Error, so it is not
caught; the run aborts and the second file, which on its own would import one
row, is never processed. -/
theorem C9_counterexample :
    mainLoop id "vpass" 0 []
        [⟨"a.csv", [RowEv.readErr], fun _ => false⟩,
         ⟨"b.csv", [RowEv.row ["2024/01/15", "S", "1", "1", "1", "2"]],
          fun _ => false⟩]
      = { completed := false, total := 0, table := [], log := [] }
    ∧ App.import_csv_to_mysql id [] "b.csv" "vpass"
        [RowEv.row ["2024/01/15", "S", "1", "1", "1", "2"]] (fun _ => false) 0
      = { res := .ret 1,
          table := [⟨⟨2024, 1, 15⟩, "S", 1, 2, none, "vpass", "b.csv", 0, 0⟩],
          log := [.insertedRow ⟨2024, 1, 15⟩ "S" 1, .totalInserted 1] } := by
  decide

/-- Claim C9 as amended: when cursor.execute raises a mysql.connector.Error
during a file's inserts, the transaction is rolled back so the table shows no
effect from that file, the import returns 0, and a multi-file run carries on
with the remaining files; an error raised while reading or decoding the file
is not caught and aborts the run instead. -/
theorem C9_amended_rollback :
    ∀ (nfkc : String → String) (table : Table) (csvFile service : String)
      (stream : List RowEv) (failAt : Nat → Bool) (now : Nat)
      (lg0 : List LogMsg) (rest : List FileJob),
      ¬ 0 < (table.filter (matchesKey service (basename csvFile))).length →
      App.loop nfkc service (basename csvFile) now failAt stream "" 0 [] []
        = .dbError lg0 →
      App.import_csv_to_mysql nfkc table csvFile service stream failAt now
        = { res := .ret 0, table := table, log := lg0 ++ [.dbError] }
      ∧ mainLoop nfkc service now table (⟨csvFile, stream, failAt⟩ :: rest)
        = { completed := (mainLoop nfkc service now table rest).completed,
            total := 0 + (mainLoop nfkc service now table rest).total,
            table := (mainLoop nfkc service now table rest).table,
            log := (lg0 ++ [.dbError]) ++ (mainLoop nfkc service now table rest).log } := by
  intro nfkc table csvFile service stream failAt now lg0 rest hdup hl
  have himp : App.import_csv_to_mysql nfkc table csvFile service stream failAt now
      = { res := .ret 0, table := table, log := lg0 ++ [.dbError] } := by
    unfold App.import_csv_to_mysql
    rw [if_neg hdup, hl]
  refine ⟨himp, ?_⟩
  rw [mainLoop_cons]
  dsimp only
  rw [himp]

/-- Witness for the amended C9: the insert of the only data row fails, the
table is untouched, and the next file of the run is still processed. -/
theorem C9_witness :
    App.import_csv_to_mysql id [] "bad.csv" "vpass"
        [RowEv.row ["2024/01/15", "S", "1", "1", "1", "2"]] (fun _ => true) 0
      = { res := .ret 0, table := [], log := [] ++ [.dbError] }
    ∧ mainLoop id "vpass" 0 []
        (⟨"bad.csv", [RowEv.row ["2024/01/15", "S", "1", "1", "1", "2"]],
          fun _ => true⟩ :: [⟨"next.csv", [], fun _ => false⟩])
      = { completed := (mainLoop id "vpass" 0 []
            [⟨"next.csv", [], fun _ => false⟩]).completed,
          total := 0 + (mainLoop id "vpass" 0 []
            [⟨"next.csv", [], fun _ => false⟩]).total,
          table := (mainLoop id "vpass" 0 []
            [⟨"next.csv", [], fun _ => false⟩]).table,
          log := ([] ++ [.dbError]) ++ (mainLoop id "vpass" 0 []
            [⟨"next.csv", [], fun _ => false⟩]).log } :=
  C9_amended_rollback id [] "bad.csv" "vpass"
    [RowEv.row ["2024/01/15", "S", "1", "1", "1", "2"]] (fun _ => true) 0 []
    [⟨"next.csv", [], fun _ => false⟩] (by decide) (by decide)

/-- Claim C10: on rows of width at most 7 the two parse_csv_row
implementations agree for every input, carried card number and service; on a
wider row they can disagree. -/
theorem C10_versions :
    (∀ (nfkc : String → String) (row : List String) (card service : String),
       row.length ≤ 7 →
       App.parse_csv_row nfkc row card service
         = Root.parse_csv_row nfkc row card service)
    ∧ App.parse_csv_row id
        ["2024/01/15", "Coffee Shop", " Main St", "1,200", "1", "1", "1,200", "tip"]
        "" "vpass"
      ≠ Root.parse_csv_row id
        ["2024/01/15", "Coffee Shop", " Main St", "1,200", "1", "1", "1,200", "tip"]
        "" "vpass" := by
  constructor
  · intro nfkc row card service h
    have he : App.extract row
        = { store := if 1 < row.length then pyStrip (row.getD 1 "") else "",
            price_idx := 2, payment_count_idx := 3, installment_count_idx := 4,
            payment_amount_idx := 5, note_idx := 6 } := by
      unfold App.extract
      rw [if_neg (by omega)]
    simp only [App.parse_csv_row, Root.parse_csv_row, he]
  · decide

/-- Witness for C10 on a width-7 row: both implementations return the same
record. -/
theorem C10_witness :
    App.parse_csv_row id ["2024/01/15", "S", "1", "1", "1", "2", "n"] "" "vpass"
      = Root.parse_csv_row id ["2024/01/15", "S", "1", "1", "1", "2", "n"] "" "vpass" :=
  C10_versions.1 id ["2024/01/15", "S", "1", "1", "1", "2", "n"] "" "vpass"
    (by decide)

example : parseYMD "2024/01/15" = some ⟨2024, 1, 15⟩ := by decide
example : parseYMD "2024/1/5" = some ⟨2024, 1, 5⟩ := by decide
example : parseYMD "2024/02/30" = none := by decide
example : parseYMD "999/1/1" = none := by decide
example : parseYMD "2024-01-15" = none := by decide
example : parseYMD "2024/12/123" = none := by decide
example : specStrictYMD "2024/1/5" = none := by decide
example : specStrictYMD "2024/01/15" = some ⟨2024, 1, 15⟩ := by decide
example : pyInt "1,2" = none := by decide
example : pyInt " -500 " = some (-500) := by decide
example : pyInt "1_000" = some 1000 := by decide
example : pyInt "1__0" = none := by decide
example : parseMoney "1,200" 0 = 1200 := by decide
example : parseMoney "  " 7 = 7 := by decide
example : parseMoney "abc" 0 = 0 := by decide
example :
    App.parse_csv_row id ["2024/01/15", "Store", "-500", "1", "1", "", ""] "" "vpass"
      = some ⟨⟨2024, 1, 15⟩, "Store", -500, -500, none, "vpass", ""⟩ := by decide
example :
    App.parse_csv_row id
      ["2024/01/15", "Coffee Shop", " Main St", " Annex", "1,200", "1", "1", "1,200", "tip"]
      "" "vpass"
      = some ⟨⟨2024, 1, 15⟩, "Coffee Shop, Main St, Annex", 1200, 1200, some "tip", "vpass", ""⟩ := by
  decide
